import Mathlib

/-!
Verification of the `phonespy.py` phone-number lookup tool.

The program wraps the external `phonenumbers` library: it parses each raw
input string, assembles a flat attribute record (a Python dict), prints the
records to the console, and optionally serializes them to JSON or CSV.

The external numbering-plan library is a black box; we model it as a
structure of oracle functions over an abstract type of parsed numbers.
Python dicts are modelled as ordered association lists, and dict values by
the small closed universe of value shapes the program actually stores
(strings, booleans, integers, lists of strings).
-/

namespace PhoneSpy

/-- The value shapes a lookup record can hold: `basic_lookup` stores strings,
booleans, an integer country code, and a list of time-zone strings. -/
inductive Value where
  | str (s : String)
  | bool (b : Bool)
  | int (n : Int)
  | strList (l : List String)
deriving DecidableEq, Repr

/-- A Python dict as the program uses it: an ordered association list of
string keys to values (insertion order preserved, keys unique in practice). -/
abbrev Record := List (String × Value)

/-- `d.get(k)` / `d[k]` key lookup: first (only) binding of `k`, if any. -/
def dictGet (r : Record) (k : String) : Option Value :=
  match r.find? (fun kv => kv.1 == k) with
  | some kv => some kv.2
  | none => none

/-- The ordered key sequence of a dict (`d.keys()`). -/
def dictKeys (r : Record) : List String := r.map Prod.fst

/-- Python truthiness restricted to the modelled value universe
(empty string, `False`, `0` and the empty list are falsy). -/
def truthy : Value → Bool
  | .str s => !(s == "")
  | .bool b => b
  | .int n => !(n == 0)
  | .strList l => !l.isEmpty

/-- Truthiness of a `d.get(k)` result: Python `None` (missing key) is falsy. -/
def truthyOpt : Option Value → Bool
  | none => false
  | some v => truthy v

/-- The single-quote character, used by Python string repr. -/
def squote : Char := Char.ofNat 39

/-- Python `repr` of a string (as used by `str` on a list of strings):
double quotes when the string holds a single quote but no double quote,
single quotes otherwise; escapes the backslash, the chosen quote and the
common control characters. (Rarer `\xXX` escapes of other control characters
are not modelled; no theorem below evaluates this branch.) -/
def pyReprStr (s : String) : String :=
  let q : Char := if s.contains squote && !(s.contains '"') then '"' else squote
  let esc : Char → String := fun c =>
    if c = '\\' then "\\\\"
    else if c = q then "\\" ++ String.singleton q
    else if c = '\n' then "\\n"
    else if c = '\r' then "\\r"
    else if c = '\t' then "\\t"
    else String.singleton c
  String.singleton q ++ String.join (s.toList.map esc) ++ String.singleton q

/-- Python `str()` of a modelled value, as an f-string interpolation does. -/
def pyStr : Value → String
  | .str s => s
  | .bool true => "True"
  | .bool false => "False"
  | .int n => toString n
  | .strList l => "[" ++ String.intercalate ", " (l.map pyReprStr) ++ "]"

/-- The external `phonenumbers` library (out of scope, modelled as a black
box) over an abstract type `P` of parsed numbers.  `parse` either returns a
parsed number or raises `NumberParseException` with a message (`Except`).
The two type-name mechanisms of `_phone_type_name` are modelled as they can
fail across library versions: `enum_name` is `PhoneNumberType(code).name`
(`none` = the attempt raises), `values_to_names` is the
`PhoneNumberType._VALUES_TO_NAMES` dict (`none` = the attribute is absent,
the inner `none` = code not a key of the dict). -/
structure PhoneLib (P : Type) where
  parse : String → Except String P
  is_valid_number : P → Bool
  is_possible_number : P → Bool
  format_international : P → String
  format_e164 : P → String
  country_code : P → Int
  description_for_number : P → String
  name_for_number : P → String
  time_zones_for_number : P → List String
  number_type : P → Int
  enum_name : Int → Option String
  values_to_names : Option (Int → Option String)

/-- `_phone_type_name(parsed)`: the phone-number type as a string.  First
attempts `PhoneNumberType(num_type).name`; on exception falls back to the
`_VALUES_TO_NAMES` dict with default `"UNKNOWN"`; if that attribute is also
missing, falls back to `str(num_type)`. -/
def phone_type_name {P : Type} (lib : PhoneLib P) (parsed : P) : String :=
  let num_type := lib.number_type parsed
  match lib.enum_name num_type with
  | some nm => nm
  | none =>
    match lib.values_to_names with
    | some tbl => (tbl num_type).getD "UNKNOWN"
    | none => toString num_type

/-- The twelve names of the fixed line-type enumeration. -/
def TYPE_NAMES : List String :=
  ["MOBILE", "FIXED_LINE", "FIXED_LINE_OR_MOBILE", "TOLL_FREE", "PREMIUM_RATE",
   "SHARED_COST", "VOIP", "PERSONAL_NUMBER", "PAGER", "UAN", "VOICEMAIL", "UNKNOWN"]

/-- `basic_lookup(raw_number)`: parse and enrich a single phone number.
A `NumberParseException` is caught and converted to the three-key error
record; otherwise the fully-populated info dict is returned, in the key
order of the source. -/
def basic_lookup {P : Type} (lib : PhoneLib P) (raw_number : String) : Record :=
  match lib.parse raw_number with
  | .error exc => [("input", .str raw_number), ("valid", .bool false), ("error", .str exc)]
  | .ok parsed =>
    let valid := lib.is_valid_number parsed
    let possible := lib.is_possible_number parsed
    [("input", .str raw_number),
     ("valid", .bool (valid && possible)),
     ("possible", .bool possible),
     ("international_format", .str (lib.format_international parsed)),
     ("e164_format", .str (lib.format_e164 parsed)),
     ("country_code", .int (lib.country_code parsed)),
     ("region", .str (lib.description_for_number parsed)),
     ("carrier", .str (lib.name_for_number parsed)),
     ("timezones", .strList (lib.time_zones_for_number parsed)),
     ("type", .str (phone_type_name lib parsed))]

/-- The console printer body of `cli` for one record (the sequence of `print`
calls it makes, one string per call).  `res[k]` indexing raises `KeyError` on
a missing key and the comma join raises `TypeError` on a non-list, modelled by
`Option` (`none` = an exception escapes); `res.get` calls never raise.
On a falsy `valid` it prints the one warning line (error defaulting to `""`);
otherwise the international format (preceded by a newline) and the four
indented detail lines, with the carrier-or-Unknown and the timezone
join-or-Unknown conditionals as in the source. -/
def print_record (res : Record) : Option (List String) :=
  if !(truthyOpt (dictGet res "valid")) then do
    let inp ← dictGet res "input"
    pure ["[!] " ++ pyStr inp ++ ": Invalid – " ++ pyStr ((dictGet res "error").getD (.str ""))]
  else do
    let fmt ← dictGet res "international_format"
    let region ← dictGet res "region"
    let cc ← dictGet res "country_code"
    let car ← dictGet res "carrier"
    let ty ← dictGet res "type"
    let tz ← dictGet res "timezones"
    let tzStr ←
      if truthy tz then
        match tz with
        | .strList l => some (String.intercalate ", " l)
        | _ => none
      else some "Unknown"
    pure ["\n" ++ pyStr fmt,
          "  Region      : " ++ pyStr region ++ " ( +" ++ pyStr cc ++ " )",
          "  Carrier     : " ++ pyStr (if truthy car then car else .str "Unknown"),
          "  Type        : " ++ pyStr ty,
          "  Time‑zones  : " ++ tzStr]

/-- What `write_csv` leaves in the CSV file: the header row followed by the
data rows actually written (each cell is the value the row dict holds for that
fieldname, or the `csv.DictWriter` default `restval` of `""` for a missing key; the
later stringification and quoting of cells belongs to the external `csv`
module), and the `ValueError` message if `writerows` raised partway. -/
structure CsvOutput where
  rows : List (List Value)
  error : Option String
deriving DecidableEq, Repr

/-- The `csv.DictWriter` extra-field check: the keys of the row dict that are
not among the fieldnames (`extrasaction` is left at its default `"raise"`). -/
def wrong_fields (fieldnames : List String) (row : Record) : List String :=
  (dictKeys row).filter (fun k => !(fieldnames.contains k))

/-- `csv.DictWriter._dict_to_list`: one cell per fieldname, the value of the row
or the `restval` default `""` when the row lacks the key. -/
def dict_to_list (fieldnames : List String) (row : Record) : List Value :=
  fieldnames.map (fun k => (dictGet row k).getD (Value.str ""))

/-- `writer.writerows(rows)`: writes rows in order until a row with extra
fields raises `ValueError` (the source message also lists the offending
fields; we keep the fixed prefix).  Returns the rows written and the error,
if any. -/
def writerows (fieldnames : List String) : List Record → List (List Value) × Option String
  | [] => ([], none)
  | r :: rs =>
    if !(wrong_fields fieldnames r).isEmpty then
      ([], some "dict contains fields not in fieldnames")
    else
      let rest := writerows fieldnames rs
      (dict_to_list fieldnames r :: rest.1, rest.2)

/-- `write_csv(path, rows)`: returns without touching the file when `rows`
is empty (`none` = the file is never opened); otherwise opens the file,
writes the header row from the key sequence of the first record, then all rows
(the exception from a shape mismatch propagates after the earlier rows were
written). -/
def write_csv (rows : List Record) : Option CsvOutput :=
  match rows with
  | [] => none
  | r0 :: _ =>
    let fieldnames := dictKeys r0
    let written := writerows fieldnames rows
    some ⟨(fieldnames.map Value.str) :: written.1, written.2⟩

/-- A file system keyed by path, for the frame property of `write_csv`. -/
abbrev FileSystem := String → Option CsvOutput

/-- Running `write_csv(path, rows)` against a file system: the target path
receives the output when the function opens the file, and the file system is
untouched when it returns early. -/
def run_write_csv (fs : FileSystem) (path : String) (rows : List Record) : FileSystem :=
  match write_csv rows with
  | none => fs
  | some out => fun p => if p = path then some out else fs p

/-- JSON values as the Python `json` module exchanges them (restricted to the
shapes the program produces: strings, booleans, integers, arrays, objects
with ordered members). -/
inductive Json where
  | str (s : String)
  | jbool (b : Bool)
  | jint (n : Int)
  | arr (elems : List Json)
  | obj (members : List (String × Json))

/-- How `json.dumps` maps a modelled dict value into a JSON value. -/
def valueToJson : Value → Json
  | .str s => .str s
  | .bool b => .jbool b
  | .int n => .jint n
  | .strList l => .arr (l.map Json.str)

/-- How `json.dumps` maps a record (dict) into a JSON object, member order
following the insertion order of the dict. -/
def recordToJson (r : Record) : Json :=
  .obj (r.map (fun kv => (kv.1, valueToJson kv.2)))

/-- The output of `write_json`: the JSON value written together with the
serializer configuration the source passes (`indent=2`,
`ensure_ascii=False`); the rendering of the value to text is the external
`json` module. -/
structure JsonDump where
  value : Json
  indent : Nat
  ensure_ascii : Bool

/-- `write_json(path, rows)`: dumps the full ordered record sequence as one
JSON array with 2-space indentation and non-ASCII preserved literally. -/
def write_json (rows : List Record) : JsonDump :=
  ⟨.arr (rows.map recordToJson), 2, false⟩

/-- Modelled from the spec: reading a JSON array of strings back as a list
of strings (helper for the parse-back direction of the round trip). -/
def strListOfJson : List Json → Option (List String)
  | [] => some []
  | Json.str s :: rest => (strListOfJson rest).map (fun l => s :: l)
  | _ :: _ => none

/-- Modelled from the spec: the parse-back direction of the round-trip
property.  Reading a JSON value back into a dict value (`json.loads` is the
external standard library; at the value level it reads a string, boolean,
integer or array of strings back as itself). -/
def jsonToValue : Json → Option Value
  | .str s => some (.str s)
  | .jbool b => some (.bool b)
  | .jint n => some (.int n)
  | .arr es => (strListOfJson es).map .strList
  | .obj _ => none

/-- Modelled from the spec: reading JSON object members back as record
entries, member order preserved. -/
def membersToRecord : List (String × Json) → Option Record
  | [] => some []
  | kv :: rest =>
    match jsonToValue kv.2, membersToRecord rest with
    | some v, some r => some ((kv.1, v) :: r)
    | _, _ => none

/-- Modelled from the spec: reading a JSON object back as a record. -/
def jsonToRecord : Json → Option Record
  | .obj ms => membersToRecord ms
  | _ => none

/-- Modelled from the spec: reading a list of JSON objects back as records,
in order (helper for reading the written array). -/
def recordsOfJson : List Json → Option (List Record)
  | [] => some []
  | j :: rest =>
    match jsonToRecord j, recordsOfJson rest with
    | some r, some rs => some (r :: rs)
    | _, _ => none

/-- Modelled from the spec: reading the written JSON array back as the
record sequence. -/
def readJsonRecords : Json → Option (List Record)
  | .arr es => recordsOfJson es
  | _ => none

/-- The lookup phase of `cli`: `results = [basic_lookup(num) for num in
args.numbers]`. -/
def cli_results {P : Type} (lib : PhoneLib P) (numbers : List String) : List Record :=
  numbers.map (basic_lookup lib)

/-! ### Concrete test fixtures

Concrete instantiations of the black-box library, used by witness and
counterexample theorems. -/

/-- Parsed numbers of the test library: the single number +12025550123. -/
inductive TestNum where
  | dc
deriving DecidableEq

/-- A concrete instantiation of the external library for witnesses: it
parses exactly "+12025550123" (a valid, possible US number of type
FIXED_LINE_OR_MOBILE, no carrier data, one time zone) and rejects every
other string with the usual missing-region message of the library.  Its
`PhoneNumberType` enum resolution works; the legacy names table is absent. -/
def testLib : PhoneLib TestNum :=
  ⟨
   -- parse
   fun s => if s = "+12025550123" then .ok .dc
            else .error "(0) Missing or invalid default region.",
   -- is_valid_number
   fun _ => true,
   -- is_possible_number
   fun _ => true,
   -- format_international
   fun _ => "+1 202-555-0123",
   -- format_e164
   fun _ => "+12025550123",
   -- country_code
   fun _ => 1,
   -- description_for_number (with language "en")
   fun _ => "Washington, DC",
   -- name_for_number (with language "en"): no carrier data
   fun _ => "",
   -- time_zones_for_number
   fun _ => ["America/New_York"],
   -- number_type
   fun _ => 2,
   -- enum_name: PhoneNumberType(2).name resolves
   fun _ => some "FIXED_LINE_OR_MOBILE",
   -- values_to_names: legacy table absent in this version
   none⟩

/-- A concrete instantiation of the external library modelling a version on
which both type-name mechanisms fail (`PhoneNumberType` not callable and no
`_VALUES_TO_NAMES` attribute) and whose classifier returns the bare code 99:
`_phone_type_name` then falls through to `str(num_type)`. -/
def legacyLib : PhoneLib Unit :=
  ⟨
   -- parse: accepts every string
   fun _ => .ok (),
   fun _ => true, fun _ => true,
   fun _ => "+1 555-000-1234", fun _ => "+15550001234",
   fun _ => 1, fun _ => "United States", fun _ => "",
   fun _ => [],
   -- number_type: a bare code outside the table
   fun _ => 99,
   -- enum_name: resolution raises for every code
   fun _ => none,
   -- values_to_names: attribute absent
   none⟩

/-- A concrete error-shaped record (as `basic_lookup` returns on a parse
failure), used by the CSV theorems. -/
def errRec : Record :=
  [("input", .str "oops"), ("valid", .bool false),
   ("error", .str "(0) Missing or invalid default region.")]

/-- The concrete fully-populated record for "+12025550123" under `testLib`. -/
def fullRec : Record := basic_lookup testLib "+12025550123"

/-- A record whose keys are a strict subset of the keys of `errRec`. -/
def tinyRec : Record := [("input", .str "x")]

/-! ### Evaluation helpers -/

/-- On a parse failure, `basic_lookup` returns exactly the three-key error
record. -/
lemma lookup_err_eq {P : Type} (lib : PhoneLib P) (s e : String)
    (hp : lib.parse s = .error e) :
    basic_lookup lib s =
      [("input", .str s), ("valid", .bool false), ("error", .str e)] := by
  simp only [basic_lookup, hp]

/-- On a parse success, `basic_lookup` returns exactly the ten-key populated
record. -/
lemma lookup_ok_eq {P : Type} (lib : PhoneLib P) (s : String) (p : P)
    (hp : lib.parse s = .ok p) :
    basic_lookup lib s =
      [("input", .str s),
       ("valid", .bool (lib.is_valid_number p && lib.is_possible_number p)),
       ("possible", .bool (lib.is_possible_number p)),
       ("international_format", .str (lib.format_international p)),
       ("e164_format", .str (lib.format_e164 p)),
       ("country_code", .int (lib.country_code p)),
       ("region", .str (lib.description_for_number p)),
       ("carrier", .str (lib.name_for_number p)),
       ("timezones", .strList (lib.time_zones_for_number p)),
       ("type", .str (phone_type_name lib p))] := by
  simp only [basic_lookup, hp]

/-! ### Claim theorems -/

/-- C1: `basic_lookup` is total over its input string and never propagates
the parser exception: when the external parser fails with message `e`, the
result is exactly the record `input / valid: false / error: e` with no other
keys; when parsing succeeds, the result is the fully-populated ten-key
record. -/
theorem lookup_total_error_shape {P : Type} (lib : PhoneLib P) (s : String) :
    (∀ e, lib.parse s = .error e →
      basic_lookup lib s =
        [("input", .str s), ("valid", .bool false), ("error", .str e)]) ∧
    (∀ p, lib.parse s = .ok p →
      basic_lookup lib s =
        [("input", .str s),
         ("valid", .bool (lib.is_valid_number p && lib.is_possible_number p)),
         ("possible", .bool (lib.is_possible_number p)),
         ("international_format", .str (lib.format_international p)),
         ("e164_format", .str (lib.format_e164 p)),
         ("country_code", .int (lib.country_code p)),
         ("region", .str (lib.description_for_number p)),
         ("carrier", .str (lib.name_for_number p)),
         ("timezones", .strList (lib.time_zones_for_number p)),
         ("type", .str (phone_type_name lib p))]) :=
  ⟨fun e he => lookup_err_eq lib s e he, fun p hp => lookup_ok_eq lib s p hp⟩

/-- Witness for C1 at the concrete test library: an unparseable string
yields exactly the error record, the accepted number the populated one. -/
theorem lookup_total_error_shape_witness :
    basic_lookup testLib "garbage" =
      [("input", .str "garbage"), ("valid", .bool false),
       ("error", .str "(0) Missing or invalid default region.")] ∧
    basic_lookup testLib "+12025550123" = fullRec :=
  ⟨(lookup_total_error_shape testLib "garbage").1 _ rfl,
   (lookup_total_error_shape testLib "+12025550123").2 TestNum.dc rfl⟩

/-- C2: for every input the external parser accepts, the `valid` field of
the returned record is the conjunction of the full-validity and
structural-possibility predicates of the library. -/
theorem lookup_valid_is_conjunction {P : Type} (lib : PhoneLib P) (s : String)
    (p : P) (hp : lib.parse s = .ok p) :
    dictGet (basic_lookup lib s) "valid" =
      some (.bool (lib.is_valid_number p && lib.is_possible_number p)) := by
  rw [lookup_ok_eq lib s p hp]
  rfl

/-- Witness for C2 at the concrete test library. -/
theorem lookup_valid_is_conjunction_witness :
    dictGet (basic_lookup testLib "+12025550123") "valid" = some (.bool true) :=
  lookup_valid_is_conjunction testLib "+12025550123" TestNum.dc rfl

/-- C9: invariant of every record `basic_lookup` produces: if its `valid`
field is `true` then its `possible` field is `true` as well (`valid` is
stored as `valid and possible`). -/
theorem lookup_valid_implies_possible {P : Type} (lib : PhoneLib P)
    (s : String)
    (hv : dictGet (basic_lookup lib s) "valid" = some (.bool true)) :
    dictGet (basic_lookup lib s) "possible" = some (.bool true) := by
  cases hp : lib.parse s with
  | error e =>
    rw [lookup_err_eq lib s e hp] at hv
    exact absurd hv (by simp [dictGet])
  | ok p =>
    rw [lookup_ok_eq lib s p hp] at hv
    rw [lookup_ok_eq lib s p hp]
    have hb : (lib.is_valid_number p && lib.is_possible_number p) = true := by
      have := hv
      simpa [dictGet] using this
    have hposs : lib.is_possible_number p = true := (Bool.and_eq_true _ _).mp hb |>.2
    simp [dictGet, hposs]

/-- Witness for C9 at the concrete test library. -/
theorem lookup_valid_implies_possible_witness :
    dictGet (basic_lookup testLib "+12025550123") "possible" = some (.bool true) :=
  lookup_valid_implies_possible testLib "+12025550123" rfl

/-- The record produced at a given position of the batch depends only on the
input at that position. -/
lemma cli_results_get_middle {P : Type} (lib : PhoneLib P) (s : String) :
    ∀ (l1 l2 : List String),
      (cli_results lib (l1 ++ s :: l2)).get? l1.length = some (basic_lookup lib s)
  | [], _ => rfl
  | _ :: t, l2 => cli_results_get_middle lib s t l2

/-- C6: `basic_lookup` is pure and deterministic — the record produced for
an input string `s` does not depend on which other lookups surround it in
the batch, so any two occurrences of `s`, however interleaved with other
inputs, yield the identical record, namely `basic_lookup lib s`. -/
theorem lookup_deterministic_interleaved {P : Type} (lib : PhoneLib P)
    (l1 l2 l3 l4 : List String) (s : String) :
    (cli_results lib (l1 ++ s :: l2)).get? l1.length =
      some (basic_lookup lib s) ∧
    (cli_results lib (l1 ++ s :: l2)).get? l1.length =
      (cli_results lib (l3 ++ s :: l4)).get? l3.length :=
  ⟨cli_results_get_middle lib s l1 l2,
   (cli_results_get_middle lib s l1 l2).trans
     (cli_results_get_middle lib s l3 l4).symm⟩

/-- C8: the CLI pipeline produces exactly one record per input, in input
order: the results sequence has the same length as the input list and its
`i`-th element is the lookup of the `i`-th input. -/
theorem cli_one_record_per_input_in_order {P : Type} (lib : PhoneLib P)
    (numbers : List String) :
    (cli_results lib numbers).length = numbers.length ∧
    ∀ i, (cli_results lib numbers).get? i =
      (numbers.get? i).map (basic_lookup lib) := by
  refine ⟨by simp [cli_results], fun i => ?_⟩
  simp [cli_results, List.get?_eq_getElem?, List.getElem?_map]

/-- C3: the console printer, on each record the pipeline produces: when the
record has a false `valid` field — on a parse failure, or on a parsed number
failing the validity conjunction — it emits exactly one warning line holding
the original input and the error message (the empty string when no error key
was set); otherwise it emits the international format (in a print preceded
by a newline) followed by the indented region/country-code, carrier
(the literal "Unknown" when the carrier string is empty), line-type, and
comma-joined time-zone lines ("Unknown" when the zone list is empty). -/
theorem console_printer_spec {P : Type} (lib : PhoneLib P) (s : String) :
    (∀ e, lib.parse s = .error e →
      print_record (basic_lookup lib s) =
        some ["[!] " ++ s ++ ": Invalid – " ++ e]) ∧
    (∀ p, lib.parse s = .ok p →
      print_record (basic_lookup lib s) =
        some (if lib.is_valid_number p && lib.is_possible_number p then
          ["\n" ++ lib.format_international p,
           "  Region      : " ++ lib.description_for_number p ++ " ( +" ++
             toString (lib.country_code p) ++ " )",
           "  Carrier     : " ++
             (if lib.name_for_number p = "" then "Unknown"
              else lib.name_for_number p),
           "  Type        : " ++ phone_type_name lib p,
           "  Time‑zones  : " ++
             (if lib.time_zones_for_number p = [] then "Unknown"
              else String.intercalate ", " (lib.time_zones_for_number p))]
         else ["[!] " ++ s ++ ": Invalid – " ++ ""])) := by
  constructor
  · intro e hp
    rw [lookup_err_eq lib s e hp]
    rfl
  · intro p hp
    rw [lookup_ok_eq lib s p hp]
    cases hb : lib.is_valid_number p && lib.is_possible_number p with
    | false => rfl
    | true =>
      by_cases hc : lib.name_for_number p = ""
      case pos =>
        rw [hc]
        cases hl : lib.time_zones_for_number p with
        | nil => rfl
        | cons t ts => rfl
      case neg =>
        have hc2 : (lib.name_for_number p == "") = false := by simp [hc]
        cases hl : lib.time_zones_for_number p with
        | nil => simp [print_record, dictGet, truthy, truthyOpt, pyStr, hc2, hc]
        | cons t ts => simp [print_record, dictGet, truthy, truthyOpt, pyStr, hc2, hc]

/-- Witness for C3 at the concrete test library: the valid number prints the
five-line block (empty carrier printed as "Unknown"), the rejected string
one warning line. -/
theorem console_printer_spec_witness :
    print_record (basic_lookup testLib "+12025550123") =
      some ["\n+1 202-555-0123",
            "  Region      : Washington, DC ( +1 )",
            "  Carrier     : Unknown",
            "  Type        : FIXED_LINE_OR_MOBILE",
            "  Time‑zones  : America/New_York"] ∧
    print_record (basic_lookup testLib "nope") =
      some ["[!] nope: Invalid – (0) Missing or invalid default region."] :=
  ⟨(console_printer_spec testLib "+12025550123").2 TestNum.dc rfl,
   (console_printer_spec testLib "nope").1 _ rfl⟩

/-- Counterexample for C5: a library version on which both type-name
mechanisms fail (as the final fallback of the source anticipates) and whose
classifier returns the bare code 99 yields the `type` field `"99"`, which is
not one of the twelve enumeration names, for an input its parser accepts. -/
theorem type_name_fallback_counterexample :
    legacyLib.parse "+15550001234" = .ok () ∧
    dictGet (basic_lookup legacyLib "+15550001234") "type" = some (.str "99") ∧
    TYPE_NAMES.contains "99" = false :=
  ⟨rfl, rfl, rfl⟩

/-- C5 (amended): the `type` field is computed by the tri-level fallback —
enumeration-name resolution, then the integer→name table (defaulting to
"UNKNOWN"), then the stringified numeric code — and it is one of the twelve
enumeration names whenever at least one of the two name mechanisms is
available and both draw their names from the enumeration; only when both
mechanisms fail does the stringified numeric code (not an enumeration name)
escape. -/
theorem type_name_in_enum_when_mechanism_available {P : Type}
    (lib : PhoneLib P) (s : String) (p : P)
    (hp : lib.parse s = .ok p)
    (henum : ∀ c nm, lib.enum_name c = some nm → nm ∈ TYPE_NAMES)
    (htbl : ∀ tbl, lib.values_to_names = some tbl →
      ∀ c nm, tbl c = some nm → nm ∈ TYPE_NAMES)
    (havail : (lib.enum_name (lib.number_type p)).isSome = true ∨
      lib.values_to_names.isSome = true) :
    dictGet (basic_lookup lib s) "type" =
      some (.str (phone_type_name lib p)) ∧
    phone_type_name lib p ∈ TYPE_NAMES := by
  constructor
  · rw [lookup_ok_eq lib s p hp]
    rfl
  · unfold phone_type_name
    cases he : lib.enum_name (lib.number_type p) with
    | some nm =>
      simp only [he]
      exact henum _ _ he
    | none =>
      cases hv : lib.values_to_names with
      | some tbl =>
        simp only [he, hv]
        cases ht : tbl (lib.number_type p) with
        | some nm =>
          simp only [ht, Option.getD_some]
          exact htbl tbl hv _ _ ht
        | none =>
          simp only [ht, Option.getD_none]
          decide
      | none =>
        exfalso
        rcases havail with h | h
        · rw [he] at h
          simp at h
        · rw [hv] at h
          simp at h

/-- Witness for C5 (amended) at the concrete test library, whose enum
resolution works: the type field is "FIXED_LINE_OR_MOBILE", a member of the
enumeration. -/
theorem type_name_in_enum_witness :
    dictGet (basic_lookup testLib "+12025550123") "type" =
      some (.str "FIXED_LINE_OR_MOBILE") ∧
    "FIXED_LINE_OR_MOBILE" ∈ TYPE_NAMES :=
  type_name_in_enum_when_mechanism_available testLib "+12025550123" TestNum.dc
    rfl
    (by
      intro c nm h
      injection h with h2
      subst h2
      decide)
    (by
      intro tbl h
      exact Option.noConfusion h)
    (Or.inl rfl)

/-- Counterexample for C4: on a sequence whose first record is an error
record and whose second is a fully-populated record, the CSV serializer does
not write one data row per record with empty strings for missing keys — the
keys of the later record outside the header make `csv.DictWriter` raise
`ValueError` (its `extrasaction` default), so only the header and the first
data row are written (2 rows, not the claimed header plus 2 data rows). -/
theorem write_csv_mixed_shapes_counterexample :
    write_csv [errRec, fullRec] =
      some ⟨[[.str "input", .str "valid", .str "error"],
             [.str "oops", .bool false,
              .str "(0) Missing or invalid default region."]],
            some "dict contains fields not in fieldnames"⟩ ∧
    ((write_csv [errRec, fullRec]).map fun out => out.rows.length) ≠ some 3 :=
  ⟨rfl, by decide⟩

/-- When the keys of every record lie among the fieldnames, `writerows` raises
nothing and writes one row per record. -/
lemma writerows_of_subset (fieldnames : List String) :
    ∀ rows : List Record,
      (∀ r ∈ rows, ∀ k ∈ dictKeys r, fieldnames.contains k = true) →
      writerows fieldnames rows =
        (rows.map (dict_to_list fieldnames), none) := by
  intro rows
  induction rows with
  | nil => intro _; rfl
  | cons r rs ih =>
    intro h
    have hr : wrong_fields fieldnames r = [] := by
      unfold wrong_fields
      rw [List.filter_eq_nil_iff]
      intro k hk
      simpa using h r (by simp) k hk
    simp [writerows, hr, ih fun r hmem => h r (by simp [hmem])]

/-- C4 (amended): the CSV serializer writes one header row equal to the key
sequence of the first record and then exactly one data row per record, with
the empty string for header keys a record lacks, provided the keys of every
record lie within the key sequence of the first; a record with a key outside
the header instead makes the writer raise (see the counterexample).  For the
empty sequence it writes nothing, not even a header. -/
theorem write_csv_header_and_rows {rows : List Record}
    (hsub : ∀ r ∈ rows, ∀ k ∈ dictKeys r,
      (dictKeys rows.headI).contains k = true) :
    write_csv rows =
      if rows = [] then none
      else some ⟨((dictKeys rows.headI).map Value.str) ::
                   rows.map (dict_to_list (dictKeys rows.headI)), none⟩ := by
  cases rows with
  | nil => rfl
  | cons r0 rs =>
    have hsub2 : ∀ r ∈ r0 :: rs, ∀ k ∈ dictKeys r,
        (dictKeys r0).contains k = true := by
      simpa using hsub
    simp [write_csv, writerows_of_subset (dictKeys r0) (r0 :: rs) hsub2]

/-- Witness for C4 (amended): a batch of an error record followed by a
record with a strict subset of its keys gets a header from the first
record with a header from its keys and two data rows, the second padded with empty strings. -/
theorem write_csv_header_and_rows_witness :
    write_csv [errRec, tinyRec] =
      some ⟨[[.str "input", .str "valid", .str "error"],
             [.str "oops", .bool false,
              .str "(0) Missing or invalid default region."],
             [.str "x", .str "", .str ""]], none⟩ :=
  write_csv_header_and_rows (by decide)

/-- C10: on the empty record sequence `write_csv` returns before opening the
output path: no file is created, truncated or modified (the file system is
returned unchanged), the early return being `none` in the model. -/
theorem write_csv_empty_touches_nothing (fs : FileSystem) (path : String) :
    run_write_csv fs path [] = fs ∧ write_csv ([] : List Record) = none :=
  ⟨rfl, rfl⟩

/-- Reading back an array of string members is the identity. -/
lemma strListOfJson_map_str (l : List String) :
    strListOfJson (l.map Json.str) = some l := by
  induction l with
  | nil => rfl
  | cons s rest ih => simp [strListOfJson, ih]

/-- Reading back an encoded value is the identity. -/
lemma jsonToValue_valueToJson (v : Value) :
    jsonToValue (valueToJson v) = some v := by
  cases v with
  | str s => rfl
  | bool b => rfl
  | int n => rfl
  | strList l => simp [valueToJson, jsonToValue, strListOfJson_map_str]

/-- Reading back encoded members is the identity. -/
lemma membersToRecord_map (r : Record) :
    membersToRecord (r.map fun kv => (kv.1, valueToJson kv.2)) = some r := by
  induction r with
  | nil => rfl
  | cons kv rest ih =>
    simp [membersToRecord, jsonToValue_valueToJson, ih]

/-- Reading back an encoded record is the identity. -/
lemma jsonToRecord_recordToJson (r : Record) :
    jsonToRecord (recordToJson r) = some r := by
  simp [jsonToRecord, recordToJson, membersToRecord_map]

/-- Reading back a list of encoded records is the identity. -/
lemma recordsOfJson_map (rows : List Record) :
    recordsOfJson (rows.map recordToJson) = some rows := by
  induction rows with
  | nil => rfl
  | cons r rest ih => simp [recordsOfJson, jsonToRecord_recordToJson, ih]

/-- C7: the JSON serializer writes the full ordered record sequence as a
single JSON array (one object per record, in order), with 2-space
indentation and non-ASCII preserved literally (`ensure_ascii=False`), and
parsing the written value back yields the records with identical field
values (round trip; the text↔value codec itself is the external `json`
standard library). -/
theorem json_serializer_round_trip (rows : List Record) :
    readJsonRecords (write_json rows).value = some rows ∧
    (write_json rows).value = Json.arr (rows.map recordToJson) ∧
    (write_json rows).indent = 2 ∧
    (write_json rows).ensure_ascii = false :=
  ⟨by simp [write_json, readJsonRecords, recordsOfJson_map], rfl, rfl, rfl⟩

end PhoneSpy

